import Mathlib

/-!
Shallow embedding of the udev-rs library (src/util.rs, src/context.rs,
src/enumerator.rs, src/monitor.rs) together with the pieces of the crate
that the provided sources reference (the error type, the try_alloc
converter, the Device handle), which are modelled from the specification.

Foreign (libudev) behaviour is abstracted as an oracle structure `Ffi`
holding one function per foreign entry point used by the embedded code;
operations additionally return the number of foreign calls they performed
and, for the filter-accumulating objects, the ghost list of filters the
foreign object has accumulated, so that claims about "no foreign call is
made" and "previously added filters are unchanged" are statable.
-/

namespace Udev

/-- OS strings are byte sequences; we model them as lists of naturals
(one per byte), matching the byte-exact conversion contract. -/
abbrev Bytes := List Nat

/-- The platform code for an invalid argument, as used by util.rs. -/
def EINVAL : Int := 22

/-- Modelled from the spec: the structured error type of the crate
(error.rs is not among the provided sources).  The spec names three
conditions - an allocation-failed error raised when a foreign constructor
returns a null handle, carrying the platform errno; a system error raised
when a foreign operation reports a nonzero status, carrying that code; and
an invalid-input condition raised locally, before any foreign call, for
strings with an embedded NUL.  Every error carries its code. -/
inductive Error where
  | allocation (errno : Int)
  | system (code : Int)
  | invalidInput (code : Int)
deriving DecidableEq

/-- The code attached to an error (every error carries one). -/
def Error.code : Error → Int
  | .allocation e => e
  | .system e => e
  | .invalidInput e => e

/-- Modelled from the spec: error.rs's from_errno constructor, called by
util.rs both at the embedded-NUL site (with EINVAL, the locally raised
invalid-input condition) and by the status converter (with a foreign
status code, the system-error condition). -/
def from_errno (errno : Int) : Error :=
  if errno = EINVAL then .invalidInput errno else .system errno

/-- util.rs os_str_to_cstring: byte-exact conversion of an OS string into
a NUL-terminated C string; fails with from_errno(EINVAL) exactly when the
input contains an embedded NUL byte. -/
def os_str_to_cstring (s : Bytes) : Except Error Bytes :=
  if 0 ∈ s then .error (from_errno EINVAL) else .ok s

/-- util.rs errno_to_result: status 0 is success, any other status is an
error built by from_errno from that status. -/
def errno_to_result (errno : Int) : Except Error Unit :=
  if errno = 0 then .ok () else .error (from_errno errno)

/-- Modelled from the spec: the try_alloc converter from the crate root
(not among the provided sources): a null foreign handle (here none)
becomes an allocation-failed error carrying the platform errno; a
non-null handle is passed through. -/
def try_alloc (ptr : Option Nat) (osErrno : Int) : Except Error Nat :=
  match ptr with
  | none => .error (.allocation osErrno)
  | some p => .ok p

/-- context.rs Context: wraps the foreign udev handle.  The reference
count is managed by the foreign layer and not modelled. -/
structure Context where
  udev : Nat
deriving DecidableEq

/-- context.rs Clone for Context: udev_ref returns its argument, so a
clone wraps the same handle. -/
def Context.clone (c : Context) : Context :=
  { udev := c.udev }

/-- Modelled from the spec: the Device handle (device.rs is not among the
provided sources): a foreign device handle plus a cloned Context keeping
the connection alive. -/
structure Device where
  handle : Nat
  context : Context
deriving DecidableEq

/-- Modelled from the spec: Device::from_raw wraps a foreign handle and
clones the originating context into the device. -/
def Device.from_raw (c : Context) (p : Nat) : Device :=
  { handle := p, context := c.clone }

/-- Modelled from the spec: the device type selector of
device_from_devnum; the device-id forms are b (block) and c (character),
passed to the foreign layer as the corresponding character code. -/
inductive DeviceType where
  | block
  | character
deriving DecidableEq

/-- The c_char value of a DeviceType (b = 98, c = 99). -/
def DeviceType.code : DeviceType → Int
  | .block => 98
  | .character => 99

/-- The filters an Enumerator can push into the foreign enumerate object
(one constructor per foreign add-filter entry point used). -/
inductive Filter where
  | subsystem (s : Bytes)
  | attribute (a v : Bytes)
  | sysname (s : Bytes)
  | property (p v : Bytes)
  | tag (t : Bytes)
  | nomatchSubsystem (s : Bytes)
  | nomatchAttribute (a v : Bytes)
  | syspath (p : Bytes)
deriving DecidableEq

/-- The kernel-side filters a MonitorBuilder can push (monitor.rs uses
the subsystem-devtype entry point with a null devtype for plain
subsystem matches). -/
inductive MFilter where
  | subsystemDevtype (s : Bytes) (d : Option Bytes)
  | tag (t : Bytes)
deriving DecidableEq

/-- The foreign (libudev) layer, abstracted as an oracle: one field per
foreign entry point the embedded code calls, plus the platform errno
observed when a constructor returns null. -/
structure Ffi where
  newFromSyspath : Bytes → Option Nat
  newFromDevnum : Int → Nat → Option Nat
  newFromSubsystemSysname : Bytes → Bytes → Option Nat
  newFromDeviceId : Bytes → Option Nat
  newFromEnvironment : Option Nat
  osErrno : Int
  propertyValue : Nat → Bytes → Option Bytes
  enumFilterStatus : Filter → Int
  enumScanStatus : List Filter → Int
  enumScanList : List Filter → List Bytes
  monFilterStatus : MFilter → Int
  enableReceivingStatus : Nat → Int

/-- context.rs device_from_syspath: convert the path (embedded-NUL check),
then call the foreign constructor, mapping null through the allocation
converter; also returns how many foreign calls were made. -/
def Context.device_from_syspath (ffi : Ffi) (c : Context) (syspath : Bytes) :
    Except Error Device × Nat :=
  match os_str_to_cstring syspath with
  | .error e => (.error e, 0)
  | .ok cs =>
    match try_alloc (ffi.newFromSyspath cs) ffi.osErrno with
    | .error e => (.error e, 1)
    | .ok p => (.ok (Device.from_raw c p), 1)

/-- context.rs device_from_devnum. -/
def Context.device_from_devnum (ffi : Ffi) (c : Context)
    (dev_type : DeviceType) (dev_num : Nat) : Except Error Device × Nat :=
  match try_alloc (ffi.newFromDevnum dev_type.code dev_num) ffi.osErrno with
  | .error e => (.error e, 1)
  | .ok p => (.ok (Device.from_raw c p), 1)

/-- context.rs device_from_subsystem_sysname: both strings are converted
before the foreign constructor is called. -/
def Context.device_from_subsystem_sysname (ffi : Ffi) (c : Context)
    (subsystem sysname : Bytes) : Except Error Device × Nat :=
  match os_str_to_cstring subsystem with
  | .error e => (.error e, 0)
  | .ok cs1 =>
    match os_str_to_cstring sysname with
    | .error e => (.error e, 0)
    | .ok cs2 =>
      match try_alloc (ffi.newFromSubsystemSysname cs1 cs2) ffi.osErrno with
      | .error e => (.error e, 1)
      | .ok p => (.ok (Device.from_raw c p), 1)

/-- context.rs device_from_device_id. -/
def Context.device_from_device_id (ffi : Ffi) (c : Context) (device_id : Bytes) :
    Except Error Device × Nat :=
  match os_str_to_cstring device_id with
  | .error e => (.error e, 0)
  | .ok cs =>
    match try_alloc (ffi.newFromDeviceId cs) ffi.osErrno with
    | .error e => (.error e, 1)
    | .ok p => (.ok (Device.from_raw c p), 1)

/-- context.rs device_from_environment. -/
def Context.device_from_environment (ffi : Ffi) (c : Context) :
    Except Error Device × Nat :=
  match try_alloc ffi.newFromEnvironment ffi.osErrno with
  | .error e => (.error e, 1)
  | .ok p => (.ok (Device.from_raw c p), 1)

/-- enumerator.rs Enumerator: foreign enumerate handle abstracted to the
ghost list of filters it has accumulated, plus the cloned context. -/
structure Enumerator where
  context : Context
  filters : List Filter
deriving DecidableEq

/-- A foreign add-filter call on the enumerate object: returns the
foreign status and the updated foreign-side filter list (the filter is
recorded when the foreign layer accepts it). -/
def Enumerator.add_filter (ffi : Ffi) (en : Enumerator) (f : Filter) :
    Int × Enumerator :=
  (ffi.enumFilterStatus f,
   if ffi.enumFilterStatus f = 0 then { en with filters := en.filters ++ [f] } else en)

/-- enumerator.rs match_subsystem: convert the string (embedded-NUL
check), then one foreign add-filter call through the status converter.
Returns the result, the updated enumerator and the number of foreign
calls made. -/
def Enumerator.match_subsystem (ffi : Ffi) (en : Enumerator) (s : Bytes) :
    Except Error Unit × Enumerator × Nat :=
  match os_str_to_cstring s with
  | .error e => (.error e, en, 0)
  | .ok cs =>
    let r := en.add_filter ffi (.subsystem cs)
    (errno_to_result r.1, r.2, 1)

/-- enumerator.rs match_attribute: attribute converted first, then the
value, then one foreign add-filter call. -/
def Enumerator.match_attribute (ffi : Ffi) (en : Enumerator) (a v : Bytes) :
    Except Error Unit × Enumerator × Nat :=
  match os_str_to_cstring a with
  | .error e => (.error e, en, 0)
  | .ok ca =>
    match os_str_to_cstring v with
    | .error e => (.error e, en, 0)
    | .ok cv =>
      let r := en.add_filter ffi (.attribute ca cv)
      (errno_to_result r.1, r.2, 1)

/-- enumerator.rs match_sysname. -/
def Enumerator.match_sysname (ffi : Ffi) (en : Enumerator) (s : Bytes) :
    Except Error Unit × Enumerator × Nat :=
  match os_str_to_cstring s with
  | .error e => (.error e, en, 0)
  | .ok cs =>
    let r := en.add_filter ffi (.sysname cs)
    (errno_to_result r.1, r.2, 1)

/-- enumerator.rs match_property. -/
def Enumerator.match_property (ffi : Ffi) (en : Enumerator) (p v : Bytes) :
    Except Error Unit × Enumerator × Nat :=
  match os_str_to_cstring p with
  | .error e => (.error e, en, 0)
  | .ok cp =>
    match os_str_to_cstring v with
    | .error e => (.error e, en, 0)
    | .ok cv =>
      let r := en.add_filter ffi (.property cp cv)
      (errno_to_result r.1, r.2, 1)

/-- enumerator.rs match_tag. -/
def Enumerator.match_tag (ffi : Ffi) (en : Enumerator) (t : Bytes) :
    Except Error Unit × Enumerator × Nat :=
  match os_str_to_cstring t with
  | .error e => (.error e, en, 0)
  | .ok ct =>
    let r := en.add_filter ffi (.tag ct)
    (errno_to_result r.1, r.2, 1)

/-- enumerator.rs nomatch_subsystem. -/
def Enumerator.nomatch_subsystem (ffi : Ffi) (en : Enumerator) (s : Bytes) :
    Except Error Unit × Enumerator × Nat :=
  match os_str_to_cstring s with
  | .error e => (.error e, en, 0)
  | .ok cs =>
    let r := en.add_filter ffi (.nomatchSubsystem cs)
    (errno_to_result r.1, r.2, 1)

/-- enumerator.rs nomatch_attribute. -/
def Enumerator.nomatch_attribute (ffi : Ffi) (en : Enumerator) (a v : Bytes) :
    Except Error Unit × Enumerator × Nat :=
  match os_str_to_cstring a with
  | .error e => (.error e, en, 0)
  | .ok ca =>
    match os_str_to_cstring v with
    | .error e => (.error e, en, 0)
    | .ok cv =>
      let r := en.add_filter ffi (.nomatchAttribute ca cv)
      (errno_to_result r.1, r.2, 1)

/-- enumerator.rs add_syspath. -/
def Enumerator.add_syspath (ffi : Ffi) (en : Enumerator) (p : Bytes) :
    Except Error Unit × Enumerator × Nat :=
  match os_str_to_cstring p with
  | .error e => (.error e, en, 0)
  | .ok cp =>
    let r := en.add_filter ffi (.syspath cp)
    (errno_to_result r.1, r.2, 1)

/-- enumerator.rs Devices: the iterator over scan results; holds the
cloned enumerator and the cursor into the foreign list of syspath
entries (the remaining entries; null is the empty list). -/
structure Devices where
  enumerator : Enumerator
  entries : List Bytes
deriving DecidableEq

/-- enumerator.rs Clone for Enumerator: udev_enumerate_ref returns its
argument, so a clone wraps the same foreign object. -/
def Enumerator.clone (en : Enumerator) : Enumerator :=
  { context := en.context, filters := en.filters }

/-- enumerator.rs scan_devices: the foreign scan status goes through the
status converter; on success the produced Devices stream holds a clone of
the enumerator with its cursor at the head of the foreign result list. -/
def Enumerator.scan_devices (ffi : Ffi) (en : Enumerator) :
    Except Error Devices :=
  match errno_to_result (ffi.enumScanStatus en.filters) with
  | .error e => .error e
  | .ok _ => .ok { enumerator := en.clone, entries := ffi.enumScanList en.filters }

/-- enumerator.rs Devices::next, the loop body over the remaining
entries: read the entry's syspath, advance the cursor, resolve it through
Context::device_from_syspath; a failed resolution is skipped silently. -/
def Devices.nextEntries (ffi : Ffi) (en : Enumerator) :
    List Bytes → Option (Device × Devices)
  | [] => none
  | e :: rest =>
    match (Context.device_from_syspath ffi en.context e).1 with
    | .ok d => some (d, { enumerator := en, entries := rest })
    | .error _ => Devices.nextEntries ffi en rest

/-- enumerator.rs Devices::next: one pull on the stream, returning the
next resolvable device and the advanced stream, or none at exhaustion. -/
def Devices.next (ffi : Ffi) (ds : Devices) : Option (Device × Devices) :=
  Devices.nextEntries ffi ds.enumerator ds.entries

/-- Repeated pulls on a Devices stream, bounded by fuel (the stream
consumes at least one entry per successful pull, so fuel equal to the
entry count drains it). -/
def Devices.drain (ffi : Ffi) : Nat → Devices → List Device
  | 0, _ => []
  | fuel + 1, ds =>
    match Devices.next ffi ds with
    | none => []
    | some (d, ds2) => d :: Devices.drain ffi fuel ds2

/-- The full sequence a Devices stream yields, obtained by pulling until
exhaustion. -/
def Devices.toList (ffi : Ffi) (ds : Devices) : List Device :=
  Devices.drain ffi ds.entries.length ds

/-- The sequence of devices obtained by resolving each entry in order and
dropping the entries whose resolution fails (the reference semantics the
Devices stream is proved to produce). -/
def resolveList (ffi : Ffi) (c : Context) : List Bytes → List Device
  | [] => []
  | e :: rest =>
    match (Context.device_from_syspath ffi c e).1 with
    | .ok d => d :: resolveList ffi c rest
    | .error _ => resolveList ffi c rest

/-- monitor.rs MonitorBuilder: foreign monitor handle, cloned context,
and the ghost list of kernel-side filters accumulated so far. -/
structure MonitorBuilder where
  monitor : Nat
  context : Context
  filters : List MFilter
deriving DecidableEq

/-- A foreign add-filter call on the monitor: status plus updated builder
(the filter is recorded when the foreign layer accepts it). -/
def MonitorBuilder.add_filter (ffi : Ffi) (b : MonitorBuilder) (f : MFilter) :
    Int × MonitorBuilder :=
  (ffi.monFilterStatus f,
   if ffi.monFilterStatus f = 0 then { b with filters := b.filters ++ [f] } else b)

/-- monitor.rs MonitorBuilder::match_subsystem: convert the string, then
one foreign add-filter call with a null devtype. -/
def MonitorBuilder.match_subsystem (ffi : Ffi) (b : MonitorBuilder) (s : Bytes) :
    Except Error Unit × MonitorBuilder × Nat :=
  match os_str_to_cstring s with
  | .error e => (.error e, b, 0)
  | .ok cs =>
    let r := b.add_filter ffi (.subsystemDevtype cs none)
    (errno_to_result r.1, r.2, 1)

/-- monitor.rs MonitorBuilder::match_subsystem_devtype: subsystem
converted first, then devtype, then one foreign add-filter call. -/
def MonitorBuilder.match_subsystem_devtype (ffi : Ffi) (b : MonitorBuilder)
    (s d : Bytes) : Except Error Unit × MonitorBuilder × Nat :=
  match os_str_to_cstring s with
  | .error e => (.error e, b, 0)
  | .ok cs =>
    match os_str_to_cstring d with
    | .error e => (.error e, b, 0)
    | .ok cd =>
      let r := b.add_filter ffi (.subsystemDevtype cs (some cd))
      (errno_to_result r.1, r.2, 1)

/-- monitor.rs MonitorBuilder::match_tag. -/
def MonitorBuilder.match_tag (ffi : Ffi) (b : MonitorBuilder) (t : Bytes) :
    Except Error Unit × MonitorBuilder × Nat :=
  match os_str_to_cstring t with
  | .error e => (.error e, b, 0)
  | .ok ct =>
    let r := b.add_filter ffi (.tag ct)
    (errno_to_result r.1, r.2, 1)

/-- monitor.rs MonitorSocket: wraps the consumed builder unchanged. -/
structure MonitorSocket where
  inner : MonitorBuilder
deriving DecidableEq

/-- monitor.rs MonitorBuilder::listen: the enable-receiving status goes
through the status converter; on success the socket wraps the builder
as-is. -/
def MonitorBuilder.listen (ffi : Ffi) (b : MonitorBuilder) :
    Except Error MonitorSocket :=
  match errno_to_result (ffi.enableReceivingStatus b.monitor) with
  | .error e => .error e
  | .ok _ => .ok { inner := b }

/-- monitor.rs AsRaw for MonitorSocket: the socket's raw handle is the
inner builder's monitor handle. -/
def MonitorSocket.as_raw (ms : MonitorSocket) : Nat :=
  ms.inner.monitor

/-- The possible outcomes of one foreign receive on the monitor socket:
no datagram pending (the would-block case), a receive failure with an
errno, or a received device handle. -/
inductive ReceiveOutcome where
  | wouldBlock
  | failure (errno : Int)
  | datagram (dev : Nat)
deriving DecidableEq

/-- The foreign udev_monitor_receive_device call collapses its outcome to
a device pointer: null (none) both when no datagram is pending and when
the receive fails, the device handle otherwise. -/
def udev_monitor_receive_device : ReceiveOutcome → Option Nat
  | .wouldBlock => none
  | .failure _ => none
  | .datagram p => some p

/-- monitor.rs Event: a device snapshot delivered by the monitor. -/
structure Event where
  device : Device
deriving DecidableEq

/-- monitor.rs MonitorSocket::next: exactly one foreign receive; a null
pointer yields none, otherwise the received device is wrapped as an
event. -/
def MonitorSocket.next (ms : MonitorSocket) (r : ReceiveOutcome) : Option Event :=
  match udev_monitor_receive_device r with
  | none => none
  | some p => some { device := Device.from_raw ms.inner.context p }

/-- monitor.rs EventType. -/
inductive EventType where
  | Add
  | Change
  | Remove
  | Bind
  | Unbind
  | Unknown
deriving DecidableEq

/-- Whether a byte is a UTF-8 continuation byte (0x80-0xBF). -/
def isCont (b : Nat) : Bool :=
  0x80 ≤ b && b ≤ 0xBF

/-- Whether a byte sequence is valid UTF-8 (the check performed by
OsStr::to_str): ASCII, two-byte 0xC2-0xDF, three-byte 0xE0/0xE1-0xEC,
0xED (excluding surrogates), 0xEE-0xEF, four-byte 0xF0/0xF1-0xF3/0xF4
(up to U+10FFFF), with overlong encodings rejected. -/
def validUtf8 : Bytes → Bool
  | [] => true
  | b :: rest =>
    if b ≤ 0x7F then validUtf8 rest
    else if 0xC2 ≤ b && b ≤ 0xDF then
      match rest with
      | c1 :: r => isCont c1 && validUtf8 r
      | [] => false
    else if b = 0xE0 then
      match rest with
      | c1 :: c2 :: r => (0xA0 ≤ c1 && c1 ≤ 0xBF) && isCont c2 && validUtf8 r
      | _ => false
    else if (0xE1 ≤ b && b ≤ 0xEC) || b = 0xEE || b = 0xEF then
      match rest with
      | c1 :: c2 :: r => isCont c1 && isCont c2 && validUtf8 r
      | _ => false
    else if b = 0xED then
      match rest with
      | c1 :: c2 :: r => (0x80 ≤ c1 && c1 ≤ 0x9F) && isCont c2 && validUtf8 r
      | _ => false
    else if b = 0xF0 then
      match rest with
      | c1 :: c2 :: c3 :: r =>
        (0x90 ≤ c1 && c1 ≤ 0xBF) && isCont c2 && isCont c3 && validUtf8 r
      | _ => false
    else if 0xF1 ≤ b && b ≤ 0xF3 then
      match rest with
      | c1 :: c2 :: c3 :: r => isCont c1 && isCont c2 && isCont c3 && validUtf8 r
      | _ => false
    else if b = 0xF4 then
      match rest with
      | c1 :: c2 :: c3 :: r =>
        (0x80 ≤ c1 && c1 ≤ 0x8F) && isCont c2 && isCont c3 && validUtf8 r
      | _ => false
    else false

/-- OsStr::to_str: succeeds exactly on valid UTF-8, returning the same
bytes (a str is its UTF-8 byte sequence, so str equality is byte
equality). -/
def osstr_to_str (s : Bytes) : Option Bytes :=
  if validUtf8 s then some s else none

/-- The bytes of the property name ACTION. -/
def actionProp : Bytes := [65, 67, 84, 73, 79, 78]

/-- The bytes of the literal add. -/
def actionAdd : Bytes := [97, 100, 100]

/-- The bytes of the literal change. -/
def actionChange : Bytes := [99, 104, 97, 110, 103, 101]

/-- The bytes of the literal remove. -/
def actionRemove : Bytes := [114, 101, 109, 111, 118, 101]

/-- The bytes of the literal bind. -/
def actionBind : Bytes := [98, 105, 110, 100]

/-- The bytes of the literal unbind. -/
def actionUnbind : Bytes := [117, 110, 98, 105, 110, 100]

/-- Modelled from the spec: Device property lookup (device.rs is not
among the provided sources): queries the foreign layer for the named
uevent property of the device; a miss is absent, not an error. -/
def Device.property_value (ffi : Ffi) (d : Device) (name : Bytes) : Option Bytes :=
  ffi.propertyValue d.handle name

/-- monitor.rs Event::event_type: read the ACTION property, convert it to
a str (None both when absent and when not valid UTF-8), and match it
against the five literals; everything else is Unknown. -/
def Event.event_type (ffi : Ffi) (ev : Event) : EventType :=
  let value := (Device.property_value ffi ev.device actionProp).bind osstr_to_str
  match value with
  | some v =>
    if v = actionAdd then .Add
    else if v = actionChange then .Change
    else if v = actionRemove then .Remove
    else if v = actionBind then .Bind
    else if v = actionUnbind then .Unbind
    else .Unknown
  | none => .Unknown

/-- A concrete context for evaluating the operations. -/
def ctx0 : Context := { udev := 1 }

/-- A concrete enumerator with one filter already accumulated. -/
def en0 : Enumerator := { context := ctx0, filters := [Filter.tag [5]] }

/-- A concrete monitor builder. -/
def b0 : MonitorBuilder := { monitor := 7, context := ctx0, filters := [MFilter.tag [5]] }

/-- A concrete foreign layer on which lookups succeed, statuses are 0,
the ACTION property is the literal remove, and a scan yields two
entries. -/
def ffi0 : Ffi where
  newFromSyspath := fun s => some (s.length + 10)
  newFromDevnum := fun _ _ => some 3
  newFromSubsystemSysname := fun _ _ => some 4
  newFromDeviceId := fun _ => some 5
  newFromEnvironment := some 6
  osErrno := 12
  propertyValue := fun _ n => if n = actionProp then some actionRemove else none
  enumFilterStatus := fun _ => 0
  enumScanStatus := fun _ => 0
  enumScanList := fun _ => [[1], [2, 2]]
  monFilterStatus := fun _ => 0
  enableReceivingStatus := fun _ => 0

/-- A concrete foreign layer on which constructors return null, statuses
are -1, and the ACTION property is present but not valid UTF-8. -/
def ffiFail : Ffi where
  newFromSyspath := fun _ => none
  newFromDevnum := fun _ _ => none
  newFromSubsystemSysname := fun _ _ => none
  newFromDeviceId := fun _ => none
  newFromEnvironment := none
  osErrno := 12
  propertyValue := fun _ n => if n = actionProp then some [255] else none
  enumFilterStatus := fun _ => -1
  enumScanStatus := fun _ => -1
  enumScanList := fun _ => []
  monFilterStatus := fun _ => -1
  enableReceivingStatus := fun _ => -1

/-- A concrete event whose device carries handle 2. -/
def ev0 : Event := { device := { handle := 2, context := ctx0 } }

theorem os_cstring_nul {s : Bytes} (h : 0 ∈ s) :
    os_str_to_cstring s = .error (from_errno EINVAL) := by
  simp [os_str_to_cstring, h]

theorem os_cstring_no_nul {s : Bytes} (h : 0 ∉ s) :
    os_str_to_cstring s = .ok s := by
  simp [os_str_to_cstring, h]

theorem os_cstring_error {s : Bytes} {e : Error}
    (h : os_str_to_cstring s = .error e) : e = from_errno EINVAL := by
  by_cases hn : 0 ∈ s
  · rw [os_cstring_nul hn] at h
    exact (Except.error.injEq _ _ ▸ h).symm
  · rw [os_cstring_no_nul hn] at h
    cases h

/-- Claim C1: for every Event, event_type reads the device's ACTION
property and returns Add, Change, Remove, Bind, or Unbind exactly when
the property value is the literal string add, change, remove, bind, or
unbind respectively (case-sensitive, byte-exact); for every other value,
and when the property is absent, it returns Unknown. -/
theorem event_type_action_mapping (ffi : Ffi) (ev : Event) :
    (Event.event_type ffi ev = .Add ↔
      Device.property_value ffi ev.device actionProp = some actionAdd) ∧
    (Event.event_type ffi ev = .Change ↔
      Device.property_value ffi ev.device actionProp = some actionChange) ∧
    (Event.event_type ffi ev = .Remove ↔
      Device.property_value ffi ev.device actionProp = some actionRemove) ∧
    (Event.event_type ffi ev = .Bind ↔
      Device.property_value ffi ev.device actionProp = some actionBind) ∧
    (Event.event_type ffi ev = .Unbind ↔
      Device.property_value ffi ev.device actionProp = some actionUnbind) ∧
    (Device.property_value ffi ev.device actionProp = none →
      Event.event_type ffi ev = .Unknown) ∧
    (∀ v, Device.property_value ffi ev.device actionProp = some v →
      v ≠ actionAdd → v ≠ actionChange → v ≠ actionRemove → v ≠ actionBind →
      v ≠ actionUnbind → Event.event_type ffi ev = .Unknown) := by
  cases hp : Device.property_value ffi ev.device actionProp with
  | none => simp [Event.event_type, hp]
  | some w =>
    cases hv : validUtf8 w with
    | false =>
      have hu : Event.event_type ffi ev = .Unknown := by
        simp [Event.event_type, hp, osstr_to_str, hv]
      have hlit : ∀ u : Bytes, validUtf8 u = true → w ≠ u := by
        intro u htrue heq
        rw [heq, htrue] at hv
        cases hv
      refine ⟨?_, ?_, ?_, ?_, ?_, fun _ => hu, fun _ _ _ _ _ _ _ => hu⟩ <;>
        (rw [hu]; simp only [Option.some.injEq]; constructor) <;>
        intro h <;>
        first
          | exact absurd h (by decide)
          | exact absurd h (hlit _ (by decide))
    | true =>
      have he : Event.event_type ffi ev =
          (if w = actionAdd then .Add
           else if w = actionChange then .Change
           else if w = actionRemove then .Remove
           else if w = actionBind then .Bind
           else if w = actionUnbind then .Unbind
           else .Unknown) := by
        simp [Event.event_type, hp, osstr_to_str, hv]
      rw [he]
      refine ⟨?_, ?_, ?_, ?_, ?_, ?_, ?_⟩
      · split_ifs <;>
          simp_all [actionAdd, actionChange, actionRemove, actionBind, actionUnbind]
      · split_ifs <;>
          simp_all [actionAdd, actionChange, actionRemove, actionBind, actionUnbind]
      · split_ifs <;>
          simp_all [actionAdd, actionChange, actionRemove, actionBind, actionUnbind]
      · split_ifs <;>
          simp_all [actionAdd, actionChange, actionRemove, actionBind, actionUnbind]
      · split_ifs <;>
          simp_all [actionAdd, actionChange, actionRemove, actionBind, actionUnbind]
      · intro h
        cases h
      · intro v hv2 h1 h2 h3 h4 h5
        cases hv2
        split_ifs <;> simp_all

/-- Witness for C1 at a concrete foreign layer: ACTION = remove maps to
Remove, and an absent ACTION maps to Unknown. -/
theorem event_type_action_mapping_witness :
    Event.event_type ffi0 ev0 = .Remove ∧
    Event.event_type ffi0 { device := { handle := 2, context := ctx0 } } ≠ .Add :=
  ⟨(event_type_action_mapping ffi0 ev0).2.2.1.mpr (by decide),
   fun h => by
     have := (event_type_action_mapping ffi0
       { device := { handle := 2, context := ctx0 } }).1.mp h
     exact absurd this (by decide)⟩

/-- Claim C9: if the ACTION property is present but its byte value is not
valid UTF-8, event_type returns Unknown - the failed conversion is folded
into the absent case. -/
theorem event_type_invalid_utf8 (ffi : Ffi) (ev : Event) (v : Bytes)
    (hp : Device.property_value ffi ev.device actionProp = some v)
    (hv : validUtf8 v = false) :
    Event.event_type ffi ev = .Unknown := by
  simp [Event.event_type, hp, osstr_to_str, hv]

/-- Witness for C9: on a foreign layer whose ACTION value is the single
byte 255 (not valid UTF-8), event_type is Unknown. -/
theorem event_type_invalid_utf8_witness :
    Device.property_value ffiFail ev0.device actionProp = some [255] ∧
    validUtf8 [255] = false ∧
    Event.event_type ffiFail ev0 = .Unknown :=
  ⟨by decide, by decide,
   event_type_invalid_utf8 ffiFail ev0 [255] (by decide) (by decide)⟩

/-- Claim C2: every string-taking lookup or filter-adding operation, when
any supplied string contains an embedded NUL byte, returns the
invalid-input error (from_errno EINVAL) with zero foreign calls made and
the accumulated filter state unchanged. -/
theorem nul_input_rejected_before_foreign_call (s : Bytes) (h : 0 ∈ s) :
    (∀ ffi c, Context.device_from_syspath ffi c s =
      (.error (from_errno EINVAL), 0)) ∧
    (∀ ffi c t, Context.device_from_subsystem_sysname ffi c s t =
      (.error (from_errno EINVAL), 0)) ∧
    (∀ ffi c t, Context.device_from_subsystem_sysname ffi c t s =
      (.error (from_errno EINVAL), 0)) ∧
    (∀ ffi c, Context.device_from_device_id ffi c s =
      (.error (from_errno EINVAL), 0)) ∧
    (∀ ffi en, Enumerator.match_subsystem ffi en s =
      (.error (from_errno EINVAL), en, 0)) ∧
    (∀ ffi en v, Enumerator.match_attribute ffi en s v =
      (.error (from_errno EINVAL), en, 0)) ∧
    (∀ ffi en a, Enumerator.match_attribute ffi en a s =
      (.error (from_errno EINVAL), en, 0)) ∧
    (∀ ffi en, Enumerator.match_sysname ffi en s =
      (.error (from_errno EINVAL), en, 0)) ∧
    (∀ ffi en v, Enumerator.match_property ffi en s v =
      (.error (from_errno EINVAL), en, 0)) ∧
    (∀ ffi en p, Enumerator.match_property ffi en p s =
      (.error (from_errno EINVAL), en, 0)) ∧
    (∀ ffi en, Enumerator.match_tag ffi en s =
      (.error (from_errno EINVAL), en, 0)) ∧
    (∀ ffi en, Enumerator.nomatch_subsystem ffi en s =
      (.error (from_errno EINVAL), en, 0)) ∧
    (∀ ffi en v, Enumerator.nomatch_attribute ffi en s v =
      (.error (from_errno EINVAL), en, 0)) ∧
    (∀ ffi en a, Enumerator.nomatch_attribute ffi en a s =
      (.error (from_errno EINVAL), en, 0)) ∧
    (∀ ffi en, Enumerator.add_syspath ffi en s =
      (.error (from_errno EINVAL), en, 0)) ∧
    (∀ ffi b, MonitorBuilder.match_subsystem ffi b s =
      (.error (from_errno EINVAL), b, 0)) ∧
    (∀ ffi b d, MonitorBuilder.match_subsystem_devtype ffi b s d =
      (.error (from_errno EINVAL), b, 0)) ∧
    (∀ ffi b t, MonitorBuilder.match_subsystem_devtype ffi b t s =
      (.error (from_errno EINVAL), b, 0)) ∧
    (∀ ffi b, MonitorBuilder.match_tag ffi b s =
      (.error (from_errno EINVAL), b, 0)) := by
  have hs := os_cstring_nul h
  refine ⟨?_, ?_, ?_, ?_, ?_, ?_, ?_, ?_, ?_, ?_, ?_, ?_, ?_, ?_, ?_, ?_, ?_,
    ?_, ?_⟩
  · intro ffi c
    simp [Context.device_from_syspath, hs]
  · intro ffi c t
    simp [Context.device_from_subsystem_sysname, hs]
  · intro ffi c t
    cases ht : os_str_to_cstring t with
    | error e =>
      have he := os_cstring_error ht
      subst he
      simp [Context.device_from_subsystem_sysname, ht]
    | ok ct => simp [Context.device_from_subsystem_sysname, ht, hs]
  · intro ffi c
    simp [Context.device_from_device_id, hs]
  · intro ffi en
    simp [Enumerator.match_subsystem, hs]
  · intro ffi en v
    simp [Enumerator.match_attribute, hs]
  · intro ffi en a
    cases ht : os_str_to_cstring a with
    | error e =>
      have he := os_cstring_error ht
      subst he
      simp [Enumerator.match_attribute, ht]
    | ok ca => simp [Enumerator.match_attribute, ht, hs]
  · intro ffi en
    simp [Enumerator.match_sysname, hs]
  · intro ffi en v
    simp [Enumerator.match_property, hs]
  · intro ffi en p
    cases ht : os_str_to_cstring p with
    | error e =>
      have he := os_cstring_error ht
      subst he
      simp [Enumerator.match_property, ht]
    | ok cp => simp [Enumerator.match_property, ht, hs]
  · intro ffi en
    simp [Enumerator.match_tag, hs]
  · intro ffi en
    simp [Enumerator.nomatch_subsystem, hs]
  · intro ffi en v
    simp [Enumerator.nomatch_attribute, hs]
  · intro ffi en a
    cases ht : os_str_to_cstring a with
    | error e =>
      have he := os_cstring_error ht
      subst he
      simp [Enumerator.nomatch_attribute, ht]
    | ok ca => simp [Enumerator.nomatch_attribute, ht, hs]
  · intro ffi en
    simp [Enumerator.add_syspath, hs]
  · intro ffi b
    simp [MonitorBuilder.match_subsystem, hs]
  · intro ffi b d
    simp [MonitorBuilder.match_subsystem_devtype, hs]
  · intro ffi b t
    cases ht : os_str_to_cstring t with
    | error e =>
      have he := os_cstring_error ht
      subst he
      simp [MonitorBuilder.match_subsystem_devtype, ht]
    | ok ct => simp [MonitorBuilder.match_subsystem_devtype, ht, hs]
  · intro ffi b
    simp [MonitorBuilder.match_tag, hs]

/-- Witness for C2: the single NUL byte as subsystem string makes
match_subsystem fail with the invalid-input error, leaving the
enumerator's already-added filter untouched and making no foreign
call. -/
theorem nul_input_rejected_witness :
    (0 : Nat) ∈ ([0] : Bytes) ∧
    Enumerator.match_subsystem ffi0 en0 [0] =
      (.error (from_errno EINVAL), en0, 0) :=
  ⟨by decide,
   (nul_input_rejected_before_foreign_call [0] (by decide)).2.2.2.2.1 ffi0 en0⟩

/-- Claim C3: the status converter maps 0 to success and every nonzero
status to a structured error carrying that code; the null-handle
converter maps a null handle to the allocation-failed error carrying the
platform errno and passes non-null handles through; and every embedded
operation funnels its foreign result through exactly the matching one of
the two converters (every status-returning operation through
errno_to_result, every handle-returning lookup through try_alloc), so no
operation silently swallows a foreign failure. -/
theorem error_converters (e : Int) :
    errno_to_result 0 = .ok () ∧
    (e ≠ 0 → errno_to_result e = .error (from_errno e)) ∧
    (from_errno e).code = e ∧
    (∀ err, try_alloc none err = .error (.allocation err)) ∧
    (∀ p err, try_alloc (some p) err = .ok p) ∧
    (∀ ffi en s, 0 ∉ s → (Enumerator.match_subsystem ffi en s).1 =
      errno_to_result (ffi.enumFilterStatus (.subsystem s))) ∧
    (∀ ffi en, Enumerator.scan_devices ffi en =
      (errno_to_result (ffi.enumScanStatus en.filters)).map
        (fun _ => { enumerator := en.clone,
                    entries := ffi.enumScanList en.filters })) ∧
    (∀ ffi b, MonitorBuilder.listen ffi b =
      (errno_to_result (ffi.enableReceivingStatus b.monitor)).map
        (fun _ => { inner := b })) ∧
    (∀ ffi c s, 0 ∉ s → (Context.device_from_syspath ffi c s).1 =
      (try_alloc (ffi.newFromSyspath s) ffi.osErrno).map (Device.from_raw c)) ∧
    (∀ ffi c dt n, (Context.device_from_devnum ffi c dt n).1 =
      (try_alloc (ffi.newFromDevnum (DeviceType.code dt) n) ffi.osErrno).map
        (Device.from_raw c)) ∧
    (∀ ffi c s t, 0 ∉ s → 0 ∉ t →
      (Context.device_from_subsystem_sysname ffi c s t).1 =
      (try_alloc (ffi.newFromSubsystemSysname s t) ffi.osErrno).map
        (Device.from_raw c)) ∧
    (∀ ffi c s, 0 ∉ s → (Context.device_from_device_id ffi c s).1 =
      (try_alloc (ffi.newFromDeviceId s) ffi.osErrno).map (Device.from_raw c)) ∧
    (∀ ffi c, (Context.device_from_environment ffi c).1 =
      (try_alloc ffi.newFromEnvironment ffi.osErrno).map (Device.from_raw c)) ∧
    (∀ ffi en a v, 0 ∉ a → 0 ∉ v → (Enumerator.match_attribute ffi en a v).1 =
      errno_to_result (ffi.enumFilterStatus (.attribute a v))) ∧
    (∀ ffi en s, 0 ∉ s → (Enumerator.match_sysname ffi en s).1 =
      errno_to_result (ffi.enumFilterStatus (.sysname s))) ∧
    (∀ ffi en p v, 0 ∉ p → 0 ∉ v → (Enumerator.match_property ffi en p v).1 =
      errno_to_result (ffi.enumFilterStatus (.property p v))) ∧
    (∀ ffi en t, 0 ∉ t → (Enumerator.match_tag ffi en t).1 =
      errno_to_result (ffi.enumFilterStatus (.tag t))) ∧
    (∀ ffi en s, 0 ∉ s → (Enumerator.nomatch_subsystem ffi en s).1 =
      errno_to_result (ffi.enumFilterStatus (.nomatchSubsystem s))) ∧
    (∀ ffi en a v, 0 ∉ a → 0 ∉ v → (Enumerator.nomatch_attribute ffi en a v).1 =
      errno_to_result (ffi.enumFilterStatus (.nomatchAttribute a v))) ∧
    (∀ ffi en p, 0 ∉ p → (Enumerator.add_syspath ffi en p).1 =
      errno_to_result (ffi.enumFilterStatus (.syspath p))) ∧
    (∀ ffi b s, 0 ∉ s → (MonitorBuilder.match_subsystem ffi b s).1 =
      errno_to_result (ffi.monFilterStatus (.subsystemDevtype s none))) ∧
    (∀ ffi b s d, 0 ∉ s → 0 ∉ d →
      (MonitorBuilder.match_subsystem_devtype ffi b s d).1 =
      errno_to_result (ffi.monFilterStatus (.subsystemDevtype s (some d)))) ∧
    (∀ ffi b t, 0 ∉ t → (MonitorBuilder.match_tag ffi b t).1 =
      errno_to_result (ffi.monFilterStatus (.tag t))) := by
  refine ⟨rfl, ?_, ?_, fun _ => rfl, fun _ _ => rfl, ?_, ?_, ?_, ?_, ?_, ?_, ?_,
    ?_, ?_, ?_, ?_, ?_, ?_, ?_, ?_, ?_, ?_, ?_⟩
  · intro he
    simp [errno_to_result, he]
  · simp only [from_errno]
    split <;> rfl
  · intro ffi en s hs
    simp [Enumerator.match_subsystem, Enumerator.add_filter, os_cstring_no_nul hs]
  · intro ffi en
    cases hr : errno_to_result (ffi.enumScanStatus en.filters) with
    | error err => simp [Enumerator.scan_devices, hr, Except.map]
    | ok u => simp [Enumerator.scan_devices, hr, Except.map]
  · intro ffi b
    cases hr : errno_to_result (ffi.enableReceivingStatus b.monitor) with
    | error err => simp [MonitorBuilder.listen, hr, Except.map]
    | ok u => simp [MonitorBuilder.listen, hr, Except.map]
  · intro ffi c s hs
    cases ha : ffi.newFromSyspath s with
    | none => simp [Context.device_from_syspath, os_cstring_no_nul hs, ha,
        try_alloc, Except.map]
    | some p => simp [Context.device_from_syspath, os_cstring_no_nul hs, ha,
        try_alloc, Except.map]
  · intro ffi c dt n
    cases ha : ffi.newFromDevnum (DeviceType.code dt) n <;>
      simp [Context.device_from_devnum, ha, try_alloc, Except.map]
  · intro ffi c s t hs ht
    cases ha : ffi.newFromSubsystemSysname s t <;>
      simp [Context.device_from_subsystem_sysname, os_cstring_no_nul hs,
        os_cstring_no_nul ht, ha, try_alloc, Except.map]
  · intro ffi c s hs
    cases ha : ffi.newFromDeviceId s <;>
      simp [Context.device_from_device_id, os_cstring_no_nul hs, ha,
        try_alloc, Except.map]
  · intro ffi c
    cases ha : ffi.newFromEnvironment <;>
      simp [Context.device_from_environment, ha, try_alloc, Except.map]
  · intro ffi en a v ha hv
    simp [Enumerator.match_attribute, Enumerator.add_filter,
      os_cstring_no_nul ha, os_cstring_no_nul hv]
  · intro ffi en s hs
    simp [Enumerator.match_sysname, Enumerator.add_filter, os_cstring_no_nul hs]
  · intro ffi en p v hp hv
    simp [Enumerator.match_property, Enumerator.add_filter,
      os_cstring_no_nul hp, os_cstring_no_nul hv]
  · intro ffi en t ht
    simp [Enumerator.match_tag, Enumerator.add_filter, os_cstring_no_nul ht]
  · intro ffi en s hs
    simp [Enumerator.nomatch_subsystem, Enumerator.add_filter,
      os_cstring_no_nul hs]
  · intro ffi en a v ha hv
    simp [Enumerator.nomatch_attribute, Enumerator.add_filter,
      os_cstring_no_nul ha, os_cstring_no_nul hv]
  · intro ffi en p hp
    simp [Enumerator.add_syspath, Enumerator.add_filter, os_cstring_no_nul hp]
  · intro ffi b s hs
    simp [MonitorBuilder.match_subsystem, MonitorBuilder.add_filter,
      os_cstring_no_nul hs]
  · intro ffi b s d hs hd
    simp [MonitorBuilder.match_subsystem_devtype, MonitorBuilder.add_filter,
      os_cstring_no_nul hs, os_cstring_no_nul hd]
  · intro ffi b t ht
    simp [MonitorBuilder.match_tag, MonitorBuilder.add_filter,
      os_cstring_no_nul ht]

/-- Witness for C3: a nonzero status converts to the error carrying it,
and a failed lookup on a concrete foreign layer is the try_alloc
conversion of the null handle. -/
theorem error_converters_witness :
    errno_to_result (-1) = .error (from_errno (-1)) ∧
    (Context.device_from_syspath ffiFail ctx0 [1]).1 =
      (try_alloc (ffiFail.newFromSyspath [1]) ffiFail.osErrno).map
        (Device.from_raw ctx0) :=
  ⟨(error_converters (-1)).2.1 (by decide),
   (error_converters (-1)).2.2.2.2.2.2.2.2.1 ffiFail ctx0 [1] (by decide)⟩

/-- Claim C4: each Context device-lookup operation fails with the
allocation error carrying the platform errno exactly when the foreign
constructor returns null, and otherwise returns Ok with a Device wrapping
the returned handle and a cloned Context. -/
theorem device_lookup_contract (ffi : Ffi) (c : Context) :
    (∀ s, 0 ∉ s →
      (ffi.newFromSyspath s = none → Context.device_from_syspath ffi c s =
        (.error (.allocation ffi.osErrno), 1)) ∧
      (∀ p, ffi.newFromSyspath s = some p → Context.device_from_syspath ffi c s =
        (.ok (Device.from_raw c p), 1))) ∧
    (∀ dt n,
      (ffi.newFromDevnum (DeviceType.code dt) n = none →
        Context.device_from_devnum ffi c dt n =
          (.error (.allocation ffi.osErrno), 1)) ∧
      (∀ p, ffi.newFromDevnum (DeviceType.code dt) n = some p →
        Context.device_from_devnum ffi c dt n = (.ok (Device.from_raw c p), 1))) ∧
    (∀ s t, 0 ∉ s → 0 ∉ t →
      (ffi.newFromSubsystemSysname s t = none →
        Context.device_from_subsystem_sysname ffi c s t =
          (.error (.allocation ffi.osErrno), 1)) ∧
      (∀ p, ffi.newFromSubsystemSysname s t = some p →
        Context.device_from_subsystem_sysname ffi c s t =
          (.ok (Device.from_raw c p), 1))) ∧
    (∀ s, 0 ∉ s →
      (ffi.newFromDeviceId s = none → Context.device_from_device_id ffi c s =
        (.error (.allocation ffi.osErrno), 1)) ∧
      (∀ p, ffi.newFromDeviceId s = some p →
        Context.device_from_device_id ffi c s = (.ok (Device.from_raw c p), 1))) ∧
    ((ffi.newFromEnvironment = none → Context.device_from_environment ffi c =
      (.error (.allocation ffi.osErrno), 1)) ∧
     (∀ p, ffi.newFromEnvironment = some p →
      Context.device_from_environment ffi c = (.ok (Device.from_raw c p), 1))) ∧
    (∀ p, (Device.from_raw c p).handle = p ∧
      (Device.from_raw c p).context = c.clone) := by
  refine ⟨?_, ?_, ?_, ?_, ?_, fun p => ⟨rfl, rfl⟩⟩
  · intro s hs
    constructor
    · intro hn
      simp [Context.device_from_syspath, os_cstring_no_nul hs, hn, try_alloc]
    · intro p hp
      simp [Context.device_from_syspath, os_cstring_no_nul hs, hp, try_alloc]
  · intro dt n
    constructor
    · intro hn
      simp [Context.device_from_devnum, hn, try_alloc]
    · intro p hp
      simp [Context.device_from_devnum, hp, try_alloc]
  · intro s t hs ht
    constructor
    · intro hn
      simp [Context.device_from_subsystem_sysname, os_cstring_no_nul hs,
        os_cstring_no_nul ht, hn, try_alloc]
    · intro p hp
      simp [Context.device_from_subsystem_sysname, os_cstring_no_nul hs,
        os_cstring_no_nul ht, hp, try_alloc]
  · intro s hs
    constructor
    · intro hn
      simp [Context.device_from_device_id, os_cstring_no_nul hs, hn, try_alloc]
    · intro p hp
      simp [Context.device_from_device_id, os_cstring_no_nul hs, hp, try_alloc]
  · constructor
    · intro hn
      simp [Context.device_from_environment, hn, try_alloc]
    · intro p hp
      simp [Context.device_from_environment, hp, try_alloc]

/-- Witness for C4: on the all-null foreign layer the syspath lookup
fails with the allocation error, and on the succeeding layer it wraps the
returned handle with the cloned context. -/
theorem device_lookup_contract_witness :
    Context.device_from_syspath ffiFail ctx0 [1] =
      (.error (.allocation ffiFail.osErrno), 1) ∧
    Context.device_from_syspath ffi0 ctx0 [1] =
      (.ok (Device.from_raw ctx0 11), 1) :=
  ⟨((device_lookup_contract ffiFail ctx0).1 [1] (by decide)).1 rfl,
   ((device_lookup_contract ffi0 ctx0).1 [1] (by decide)).2 11 rfl⟩

/-- Claim C5: scan_devices fails exactly when the foreign scan status is
nonzero, with the error built from that status (the system-error
condition for the foreign layer's negative statuses); on status 0 it
returns a Devices stream whose cursor is the head of the foreign result
list, and the failing case constructs no stream. -/
theorem scan_devices_contract (ffi : Ffi) (en : Enumerator) :
    (ffi.enumScanStatus en.filters = 0 →
      Enumerator.scan_devices ffi en =
        .ok { enumerator := en.clone, entries := ffi.enumScanList en.filters }) ∧
    (ffi.enumScanStatus en.filters ≠ 0 →
      Enumerator.scan_devices ffi en =
        .error (from_errno (ffi.enumScanStatus en.filters))) ∧
    (ffi.enumScanStatus en.filters < 0 →
      Enumerator.scan_devices ffi en =
        .error (.system (ffi.enumScanStatus en.filters))) := by
  refine ⟨fun h0 => ?_, fun hne => ?_, fun hlt => ?_⟩
  · simp [Enumerator.scan_devices, errno_to_result, h0]
  · simp [Enumerator.scan_devices, errno_to_result, hne]
  · have hne : ffi.enumScanStatus en.filters ≠ 0 := by omega
    have h22 : ffi.enumScanStatus en.filters ≠ EINVAL := by
      simp only [EINVAL]
      omega
    simp [Enumerator.scan_devices, errno_to_result, hne, from_errno, h22]

/-- Witness for C5: a zero scan status yields the stream at the head of
the foreign list; a scan status of -1 yields the system error -1. -/
theorem scan_devices_contract_witness :
    Enumerator.scan_devices ffi0 en0 =
      .ok { enumerator := en0.clone, entries := ffi0.enumScanList en0.filters } ∧
    Enumerator.scan_devices ffiFail en0 = .error (.system (-1)) :=
  ⟨(scan_devices_contract ffi0 en0).1 rfl,
   (scan_devices_contract ffiFail en0).2.2 (by decide)⟩

/-- Claim C6: each pull on a Devices stream resolves the next entry with
the same syspath lookup as Context::device_from_syspath; an entry whose
lookup fails is skipped silently and iteration continues, per-entry
failures never surface, and none is returned exactly when the cursor
runs to null (every remaining entry failing to resolve). -/
theorem devices_next_contract :
    (∀ ffi en, Devices.next ffi { enumerator := en, entries := [] } = none) ∧
    (∀ ffi en e rest,
      (∀ d, (Context.device_from_syspath ffi en.context e).1 ≠ .ok d) →
      Devices.next ffi { enumerator := en, entries := e :: rest } =
        Devices.next ffi { enumerator := en, entries := rest }) ∧
    (∀ ffi en e rest d,
      (Context.device_from_syspath ffi en.context e).1 = .ok d →
      Devices.next ffi { enumerator := en, entries := e :: rest } =
        some (d, { enumerator := en, entries := rest })) ∧
    (∀ ffi en l,
      Devices.next ffi { enumerator := en, entries := l } = none ↔
      ∀ e ∈ l, ∀ d, (Context.device_from_syspath ffi en.context e).1 ≠ .ok d) := by
  refine ⟨fun ffi en => rfl, ?_, ?_, ?_⟩
  · intro ffi en e rest hfail
    cases hr : (Context.device_from_syspath ffi en.context e).1 with
    | ok d => exact absurd hr (hfail d)
    | error err => simp [Devices.next, Devices.nextEntries, hr]
  · intro ffi en e rest d hok
    simp [Devices.next, Devices.nextEntries, hok]
  · intro ffi en l
    induction l with
    | nil => simp [Devices.next, Devices.nextEntries]
    | cons e rest ih =>
      cases hr : (Context.device_from_syspath ffi en.context e).1 with
      | ok d =>
        simp only [Devices.next, Devices.nextEntries, hr]
        constructor
        · intro hcontra
          cases hcontra
        · intro hall
          exact absurd hr (hall e (List.mem_cons_self e rest) d)
      | error err =>
        have hstep : Devices.next ffi { enumerator := en, entries := e :: rest } =
            Devices.next ffi { enumerator := en, entries := rest } := by
          simp [Devices.next, Devices.nextEntries, hr]
        rw [hstep, ih]
        constructor
        · intro hall e2 he2
          rcases List.mem_cons.mp he2 with heq | hm
          · subst heq
            intro d hd
            rw [hr] at hd
            cases hd
          · exact hall e2 hm
        · intro hall e2 he2
          exact hall e2 (List.mem_cons_of_mem _ he2)

/-- Witness for C6: on the succeeding foreign layer the first pull yields
the resolved head entry with the cursor advanced; the empty cursor is
exhausted at once. -/
theorem devices_next_contract_witness :
    Devices.next ffi0 { enumerator := en0, entries := [[1], [2, 2]] } =
      some (Device.from_raw en0.context 11,
            { enumerator := en0, entries := [[2, 2]] }) ∧
    Devices.next ffiFail { enumerator := en0, entries := [] } = none :=
  ⟨devices_next_contract.2.2.1 ffi0 en0 [1] [[2, 2]]
     (Device.from_raw en0.context 11) rfl,
   devices_next_contract.1 ffiFail en0⟩

/-- Claim C8: each pull on a MonitorSocket performs one foreign receive;
no pending datagram (would-block) yields none rather than an error, a
received datagram is wrapped as an event carrying the device snapshot,
any other receive failure also yields none (end of stream), and no pull
ever produces an error value. -/
theorem monitor_next_contract (ms : MonitorSocket) :
    MonitorSocket.next ms .wouldBlock = none ∧
    (∀ e, MonitorSocket.next ms (.failure e) = none) ∧
    (∀ p, MonitorSocket.next ms (.datagram p) =
      some { device := Device.from_raw ms.inner.context p }) ∧
    (∀ r, MonitorSocket.next ms r = none ∨
      ∃ ev, MonitorSocket.next ms r = some ev) := by
  refine ⟨rfl, fun e => rfl, fun p => rfl, ?_⟩
  intro r
  cases r with
  | wouldBlock => exact .inl rfl
  | failure e => exact .inl rfl
  | datagram p => exact .inr ⟨_, rfl⟩

/-- Claim C10: listen on a zero enable-receiving status returns a socket
wrapping the very builder it consumed, with no field altered (same
monitor handle, context and filters); on a nonzero status it returns the
converted error and constructs no socket. -/
theorem listen_contract (ffi : Ffi) (b : MonitorBuilder) :
    (ffi.enableReceivingStatus b.monitor = 0 →
      MonitorBuilder.listen ffi b = .ok { inner := b } ∧
      ∀ ms, MonitorBuilder.listen ffi b = .ok ms →
        ms.inner = b ∧ ms.as_raw = b.monitor ∧
        ms.inner.context = b.context ∧ ms.inner.filters = b.filters) ∧
    (ffi.enableReceivingStatus b.monitor ≠ 0 →
      MonitorBuilder.listen ffi b =
        .error (from_errno (ffi.enableReceivingStatus b.monitor))) := by
  constructor
  · intro h0
    have hl : MonitorBuilder.listen ffi b = .ok { inner := b } := by
      simp [MonitorBuilder.listen, errno_to_result, h0]
    refine ⟨hl, fun ms hms => ?_⟩
    rw [hl] at hms
    injection hms with h2
    subst h2
    exact ⟨rfl, rfl, rfl, rfl⟩
  · intro hne
    simp [MonitorBuilder.listen, errno_to_result, hne]

/-- Witness for C10: with status 0 the socket wraps the builder as-is;
with status -1 listen fails with the converted error. -/
theorem listen_contract_witness :
    MonitorBuilder.listen ffi0 b0 = .ok { inner := b0 } ∧
    MonitorBuilder.listen ffiFail b0 = .error (from_errno (-1)) :=
  ⟨((listen_contract ffi0 b0).1 rfl).1,
   (listen_contract ffiFail b0).2 (by decide)⟩

theorem resolveList_index (ffi : Ffi) (c : Context) :
    ∀ (l : List Bytes) (j : Nat) (e : Bytes) (d : Device),
      l[j]? = some e → (Context.device_from_syspath ffi c e).1 = .ok d →
      ∃ k : Nat, (resolveList ffi c l)[k]? = some d := by
  intro l
  induction l with
  | nil =>
    intro j e d hj
    cases hj
  | cons a rest ih =>
    intro j e d hj hd
    cases j with
    | zero =>
      have ha : a = e := by
        simpa using hj
      subst ha
      refine ⟨0, ?_⟩
      simp [resolveList, hd]
    | succ j2 =>
      have hj2 : rest[j2]? = some e := by
        simpa using hj
      obtain ⟨k, hk⟩ := ih j2 e d hj2 hd
      cases hr : (Context.device_from_syspath ffi c a).1 with
      | ok d2 =>
        refine ⟨k + 1, ?_⟩
        simp [resolveList, hr, hk]
      | error err =>
        refine ⟨k, ?_⟩
        simp [resolveList, hr, hk]

theorem resolveList_order (ffi : Ffi) (c : Context) :
    ∀ (l : List Bytes) (i j : Nat) (e1 e2 : Bytes) (d1 d2 : Device),
      i < j → l[i]? = some e1 → l[j]? = some e2 →
      (Context.device_from_syspath ffi c e1).1 = .ok d1 →
      (Context.device_from_syspath ffi c e2).1 = .ok d2 →
      ∃ i2 j2 : Nat, i2 < j2 ∧ (resolveList ffi c l)[i2]? = some d1 ∧
        (resolveList ffi c l)[j2]? = some d2 := by
  intro l
  induction l with
  | nil =>
    intro i j e1 e2 d1 d2 hij h1
    cases h1
  | cons a rest ih =>
    intro i j e1 e2 d1 d2 hij h1 h2 hd1 hd2
    cases i with
    | zero =>
      have ha : a = e1 := by
        simpa using h1
      subst ha
      cases j with
      | zero => omega
      | succ j2 =>
        have hj2 : rest[j2]? = some e2 := by
          simpa using h2
        obtain ⟨k, hk⟩ := resolveList_index ffi c rest j2 e2 d2 hj2 hd2
        refine ⟨0, k + 1, Nat.succ_pos k, ?_, ?_⟩ <;> simp [resolveList, hd1, hk]
    | succ i2 =>
      cases j with
      | zero => omega
      | succ j2 =>
        have h1r : rest[i2]? = some e1 := by
          simpa using h1
        have h2r : rest[j2]? = some e2 := by
          simpa using h2
        obtain ⟨a1, b1, hab, hga, hgb⟩ :=
          ih i2 j2 e1 e2 d1 d2 (by omega) h1r h2r hd1 hd2
        cases hr : (Context.device_from_syspath ffi c a).1 with
        | ok d =>
          refine ⟨a1 + 1, b1 + 1, by omega, ?_, ?_⟩ <;>
            simp [resolveList, hr, hga, hgb]
        | error err =>
          refine ⟨a1, b1, hab, ?_, ?_⟩ <;> simp [resolveList, hr, hga, hgb]

theorem drain_eq (ffi : Ffi) (en : Enumerator) :
    ∀ (l : List Bytes) (fuel : Nat), l.length ≤ fuel →
      Devices.drain ffi fuel { enumerator := en, entries := l } =
        resolveList ffi en.context l := by
  intro l
  induction l with
  | nil =>
    intro fuel hf
    cases fuel with
    | zero => rfl
    | succ f => simp [Devices.drain, Devices.next, Devices.nextEntries, resolveList]
  | cons e rest ih =>
    intro fuel hf
    cases fuel with
    | zero => simp at hf
    | succ f =>
      cases hr : (Context.device_from_syspath ffi en.context e).1 with
      | ok d =>
        have hn : Devices.next ffi { enumerator := en, entries := e :: rest } =
            some (d, { enumerator := en, entries := rest }) := by
          simp [Devices.next, Devices.nextEntries, hr]
        have hrest : rest.length ≤ f := by
          simp at hf
          omega
        simp [Devices.drain, hn, resolveList, hr, ih f hrest]
      | error err =>
        have hn : Devices.next ffi { enumerator := en, entries := e :: rest } =
            Devices.next ffi { enumerator := en, entries := rest } := by
          simp [Devices.next, Devices.nextEntries, hr]
        have hstep : Devices.drain ffi (f + 1)
              { enumerator := en, entries := e :: rest } =
            Devices.drain ffi (f + 1) { enumerator := en, entries := rest } := by
          simp only [Devices.drain, hn]
        have hrest : rest.length ≤ f + 1 := by
          simp at hf
          omega
        rw [hstep, ih (f + 1) hrest]
        simp [resolveList, hr]

theorem devices_toList_eq (ffi : Ffi) (en : Enumerator) (l : List Bytes) :
    Devices.toList ffi { enumerator := en, entries := l } =
      resolveList ffi en.context l :=
  drain_eq ffi en l l.length (Nat.le_refl _)

/-- Claim C7: the Devices stream yields devices in exactly the relative
order of the foreign scan list, with no re-sorting: whenever one entry
precedes another in the foreign list and both resolve successfully, the
corresponding devices appear in the yielded sequence in that same
relative order. -/
theorem devices_order_preserved (ffi : Ffi) (en : Enumerator) (l : List Bytes)
    (i j : Nat) (e1 e2 : Bytes) (d1 d2 : Device) (hij : i < j)
    (h1 : l[i]? = some e1) (h2 : l[j]? = some e2)
    (hd1 : (Context.device_from_syspath ffi en.context e1).1 = .ok d1)
    (hd2 : (Context.device_from_syspath ffi en.context e2).1 = .ok d2) :
    ∃ i2 j2 : Nat, i2 < j2 ∧
      (Devices.toList ffi { enumerator := en, entries := l })[i2]? = some d1 ∧
      (Devices.toList ffi { enumerator := en, entries := l })[j2]? = some d2 := by
  rw [devices_toList_eq]
  exact resolveList_order ffi en.context l i j e1 e2 d1 d2 hij h1 h2 hd1 hd2

/-- Witness for C7: on the succeeding foreign layer the two scan entries
resolve to handles 11 and 12 and are yielded in list order. -/
theorem devices_order_preserved_witness :
    ∃ i2 j2 : Nat, i2 < j2 ∧
      (Devices.toList ffi0
        { enumerator := en0, entries := [[1], [2, 2]] })[i2]? =
        some (Device.from_raw en0.context 11) ∧
      (Devices.toList ffi0
        { enumerator := en0, entries := [[1], [2, 2]] })[j2]? =
        some (Device.from_raw en0.context 12) :=
  devices_order_preserved ffi0 en0 [[1], [2, 2]] 0 1 [1] [2, 2]
    (Device.from_raw en0.context 11) (Device.from_raw en0.context 12)
    (by decide) rfl rfl rfl rfl

end Udev
